import Mathlib

/-!
Shallow embedding of the repository's two source files:
  `src/utils/models.py`      (class `Models`)
  `src/utils/view_model.py`  (standalone `plot_training_metrics`)

Modelling conventions:
* Python `float` metric values are modelled as rationals (`ℚ`); the code only
  stores, compares and takes max/min of them, never NaN-producing arithmetic.
* A fallible Python expression (an uncaught exception: `FileNotFoundError`
  from `torch.load`, `KeyError` from a dict access, `ValueError` from
  `max`/`min`/`list.index` on an empty/absent value, `RuntimeError` from a
  shape mismatch in `load_state_dict`) is a `none`; `Option.bind` chains the
  statements of a method body, so an exception propagates and aborts the call.
* The filesystem is a function `FS : String → Option Checkpoint` giving the
  checkpoint `torch.load` would read at a path, `none` for a missing file.
* A `torchvision` pretrained network is reduced to the data the code touches:
  its final classification layer (`classifier[1]`, `classifier[3]` or `fc`
  depending on the architecture, uniformly called `head` here), its loaded
  state dict, its `training` flag and its device.  A state dict is reduced to
  the shape of its final layer plus an opaque payload tag;
  `load_state_dict` succeeds exactly when the shape matches, mirroring the
  shape-mismatch `RuntimeError`.
* Plot routines return a record of their observable effects (series passed to
  `plot`, marker indices, the epoch placed in the text and at the arrow, the
  `savefig` path); the Python functions themselves return `None`.
-/

/-- A `torch.nn.Linear` layer, reduced to its shape. -/
structure Linear where
  in_features : ℕ
  out_features : ℕ
deriving DecidableEq

/-- A state dict, reduced to the shape of the final classification layer it
was saved with, plus an opaque tag distinguishing different trained weights. -/
structure StateDict where
  head_shape : Linear
  payload : ℕ
deriving DecidableEq

/-- A `torchvision` classifier, reduced to the pieces the code manipulates. -/
structure TVModel where
  head : Linear
  loaded : Option StateDict
  training : Bool
  device : String
deriving DecidableEq

/-- The external `torchvision.models` factory: the pretrained base network each
constructor call returns (its head still sized for ImageNet). -/
structure Torchvision where
  efficientnet_b0 : TVModel
  efficientnet_b1 : TVModel
  mobilenet_v3_large : TVModel
  shufflenet_v2_x2_0 : TVModel

/-- A checkpoint as a Python dict restricted to the keys the code reads; a
`none` field is a missing key, whose access raises `KeyError`. -/
structure Checkpoint where
  model_state_dict : Option StateDict
  best_val_f1 : Option ℚ
  train_loss : Option (List ℚ)
  val_loss : Option (List ℚ)
  f1_metric_val : Option (List ℚ)
deriving DecidableEq

/-- The filesystem as seen through `torch.load`. -/
abbrev FS := String → Option Checkpoint

/-- `model.classifier[i] = nn.Linear(model.classifier[i].in_features, num_classes)`
(resp. `model.fc = ...`): replace the final layer, keeping its input width. -/
def replace_head (m : TVModel) (num_classes : ℕ) : TVModel :=
  { m with head := ⟨m.head.in_features, num_classes⟩ }

/-- `model.load_state_dict(sd)`: fails (shape-mismatch `RuntimeError`) unless
the saved final-layer shape matches the model's. -/
def load_state_dict (m : TVModel) (sd : StateDict) : Option TVModel :=
  if sd.head_shape = m.head then some { m with loaded := some sd } else none

/-- `model.eval()`: clears the `training` flag. -/
def model_eval (m : TVModel) : TVModel :=
  { m with training := false }

/-- `model.to(device)`. -/
def model_to (m : TVModel) (device : String) : TVModel :=
  { m with device := device }

/-- Python `max(l)` over a running fold, matching CPython's left fold. -/
def foldMax (x : ℚ) : List ℚ → ℚ
  | [] => x
  | y :: ys => foldMax (max x y) ys

/-- Python `min(l)` over a running fold. -/
def foldMin (x : ℚ) : List ℚ → ℚ
  | [] => x
  | y :: ys => foldMin (min x y) ys

/-- Python `max(l)`: `ValueError` (`none`) on an empty list. -/
def pyMax : List ℚ → Option ℚ
  | [] => none
  | x :: xs => some (foldMax x xs)

/-- Python `min(l)`: `ValueError` (`none`) on an empty list. -/
def pyMin : List ℚ → Option ℚ
  | [] => none
  | x :: xs => some (foldMin x xs)

/-- Python `l.index(a)`: first position of `a`, `ValueError` (`none`) if absent. -/
def pyIndex : List ℚ → ℚ → Option ℕ
  | [], _ => none
  | x :: xs, a => if x = a then some 0 else (pyIndex xs a).map (· + 1)

/-- Python dict assignment `d[k] = v`: replace in place if the key exists,
else append, preserving insertion order. -/
def dictInsert (d : List (String × ℚ)) (k : String) (v : ℚ) : List (String × ℚ) :=
  match d with
  | [] => [(k, v)]
  | (k', v') :: rest => if k' = k then (k', v) :: rest else (k', v') :: dictInsert rest k v

/-- Python dict lookup `d[k]`. -/
def dictLookup (d : List (String × ℚ)) (k : String) : Option ℚ :=
  match d with
  | [] => none
  | (k', v) :: rest => if k' = k then some v else dictLookup rest k

/-- The `Models` object: the instance attributes set by `Models.__init__`. -/
structure Models where
  root_folder : String
  download_folder : String
  size_tuple : ℕ × ℕ
  device : String
  model_weights : List (String × ℚ)
deriving DecidableEq

/-- `Models.__init__`: `root_folder` (derived from `__file__`) and the device
(`"cuda"` when available, else `"cpu"`) are environment inputs;
`download_folder = root_folder / "data" / "models"`, `size_tuple = (224, 224)`,
`model_weights = dict()`. -/
def Models.init (root_folder device : String) : Models :=
  { root_folder := root_folder
    download_folder := root_folder ++ "/data/models"
    size_tuple := (224, 224)
    device := device
    model_weights := [] }

/-- `create_new_efficientnet_b0`. -/
def Models.create_new_efficientnet_b0 (tv : Torchvision) (self : Models)
    (num_classes : ℕ := 8) : TVModel :=
  model_to (replace_head tv.efficientnet_b0 num_classes) self.device

/-- `create_new_efficientnet_b1`. -/
def Models.create_new_efficientnet_b1 (tv : Torchvision) (self : Models)
    (num_classes : ℕ := 8) : TVModel :=
  model_to (replace_head tv.efficientnet_b1 num_classes) self.device

/-- `create_new_mobilenet_v3_large`. -/
def Models.create_new_mobilenet_v3_large (tv : Torchvision) (self : Models)
    (num_classes : ℕ := 8) : TVModel :=
  model_to (replace_head tv.mobilenet_v3_large num_classes) self.device

/-- `create_new_shufflenet_v2_x2_0`. -/
def Models.create_new_shufflenet_v2_x2_0 (tv : Torchvision) (self : Models)
    (num_classes : ℕ := 8) : TVModel :=
  model_to (replace_head tv.shufflenet_v2_x2_0 num_classes) self.device

/-- The common body of the four `prepare_finetuned_*` methods, which differ
only in the base network they instantiate: resize the head, `torch.load` the
checkpoint at `str(self.download_folder) + f"/{model_name}_best_f1.pth"`,
`load_state_dict`, `eval()`, record `checkpoint["best_val_f1"]` under
`model_name` in `self.model_weights`, return `model.to(device)` together with
the updated object state. -/
def prepare_finetuned_core (base : TVModel) (fs : FS) (self : Models)
    (model_name : String) (num_classes : ℕ) : Option (TVModel × Models) :=
  (fs (self.download_folder ++ "/" ++ model_name ++ "_best_f1.pth")).bind fun checkpoint =>
  checkpoint.model_state_dict.bind fun sd =>
  (load_state_dict (replace_head base num_classes) sd).bind fun model =>
  checkpoint.best_val_f1.bind fun v =>
  some (model_to (model_eval model) self.device,
    { self with model_weights := dictInsert self.model_weights model_name v })

/-- `prepare_finetuned_efficientnet_b0`. -/
def Models.prepare_finetuned_efficientnet_b0 (tv : Torchvision) (fs : FS) (self : Models)
    (model_name : String) (num_classes : ℕ := 8) : Option (TVModel × Models) :=
  prepare_finetuned_core tv.efficientnet_b0 fs self model_name num_classes

/-- `prepare_finetuned_efficientnet_b1`. -/
def Models.prepare_finetuned_efficientnet_b1 (tv : Torchvision) (fs : FS) (self : Models)
    (model_name : String) (num_classes : ℕ := 8) : Option (TVModel × Models) :=
  prepare_finetuned_core tv.efficientnet_b1 fs self model_name num_classes

/-- `prepare_finetuned_mobilenet_v3_large`. -/
def Models.prepare_finetuned_mobilenet_v3_large (tv : Torchvision) (fs : FS) (self : Models)
    (model_name : String) (num_classes : ℕ := 8) : Option (TVModel × Models) :=
  prepare_finetuned_core tv.mobilenet_v3_large fs self model_name num_classes

/-- `prepare_finetuned_shufflenet_v2_x2_0`. -/
def Models.prepare_finetuned_shufflenet_v2_x2_0 (tv : Torchvision) (fs : FS) (self : Models)
    (model_name : String) (num_classes : ℕ := 8) : Option (TVModel × Models) :=
  prepare_finetuned_core tv.shufflenet_v2_x2_0 fs self model_name num_classes

/-- Observable effects of `Models.plot_training_metrics`: the series handed to
`ax1.plot`/`ax2.plot`, the F1 marker indices (`markevery`), the epoch printed
in the text and used as the arrow's x, the max-F1 value used as the arrow's y,
the epoch count in the title, and the `savefig` path. -/
structure PlotOutput where
  train_series : List ℚ
  val_series : List ℚ
  f1_series : List ℚ
  marker_on : List ℕ
  ann_epoch : ℕ
  ann_x : ℕ
  ann_y : ℚ
  title_epochs : ℕ
  saved_path : String
deriving DecidableEq

/-- `Models.plot_training_metrics`: load the checkpoint, read `val_loss`,
`train_loss`, `f1_metric_val`, plot the losses, set
`marker_on = [f1_metric_val.index(max(f1_metric_val))]`, annotate
`f"Max F1 score after {f1_metric_val.index(max(f1_metric_val))+1} epochs"`
at `xy = (index+1, max)`, save to
`str(self.root_folder) + f"/data/images/{name_of_the_net}.png"`. -/
def Models.plot_training_metrics (fs : FS) (self : Models)
    (checkpoint_path name_of_the_net : String) : Option PlotOutput :=
  (fs checkpoint_path).bind fun checkpoint =>
  checkpoint.val_loss.bind fun losses_val =>
  checkpoint.train_loss.bind fun losses_train =>
  checkpoint.f1_metric_val.bind fun f1_metric_val =>
  (pyMax f1_metric_val).bind fun mx =>
  (pyIndex f1_metric_val mx).bind fun idx =>
  some { train_series := losses_train
         val_series := losses_val
         f1_series := f1_metric_val
         marker_on := [idx]
         ann_epoch := idx + 1
         ann_x := idx + 1
         ann_y := mx
         title_epochs := losses_train.length
         saved_path := self.root_folder ++ "/data/images/" ++ name_of_the_net ++ ".png" }

/-- Observable effects of `view_model.plot_training_metrics`: here the marker
(`markevery` on the val-loss curve) and the arrow (`xy`) sit at the minimum
validation loss, while the text reports the max-F1 epoch. -/
structure VMPlotOutput where
  train_series : List ℚ
  val_series : List ℚ
  f1_series : List ℚ
  marker_on : List ℕ
  ann_text_epoch : ℕ
  ann_text_value : ℚ
  ann_x : ℕ
  ann_y : ℚ
  title_epochs : ℕ
  saved_path : String
deriving DecidableEq

namespace ViewModel

/-- `view_model.plot_training_metrics(checkpoint_path, net_name, output_dir)`:
load the checkpoint, read the three sequences, set
`marker_on = [losses_val.index(min(losses_val))]`, annotate with text epoch
`f1_metric_val.index(max(f1_metric_val)) + 1` but arrow
`xy = (losses_val.index(min(losses_val)) + 1, min(losses_val))`, save to
`f"{output_dir}/{net_name}.png"`. -/
def plot_training_metrics (fs : FS) (checkpoint_path net_name : String)
    (output_dir : String := "src/data/images") : Option VMPlotOutput :=
  (fs checkpoint_path).bind fun checkpoint =>
  checkpoint.val_loss.bind fun losses_val =>
  checkpoint.train_loss.bind fun losses_train =>
  checkpoint.f1_metric_val.bind fun f1_metric_val =>
  (pyMin losses_val).bind fun mn =>
  (pyIndex losses_val mn).bind fun mnIdx =>
  (pyMax f1_metric_val).bind fun mx =>
  (pyIndex f1_metric_val mx).bind fun mxIdx =>
  some { train_series := losses_train
         val_series := losses_val
         f1_series := f1_metric_val
         marker_on := [mnIdx]
         ann_text_epoch := mxIdx + 1
         ann_text_value := mx
         ann_x := mnIdx + 1
         ann_y := mn
         title_epochs := losses_train.length
         saved_path := output_dir ++ "/" ++ net_name ++ ".png" }

end ViewModel

/-- `i` is the position of the first occurrence of the maximum of `l`. -/
def IsFirstArgmax (l : List ℚ) (i : ℕ) : Prop :=
  ∃ hi : i < l.length,
    (∀ j (hj : j < l.length), l.get ⟨j, hj⟩ ≤ l.get ⟨i, hi⟩) ∧
    ∀ j (hj : j < l.length), l.get ⟨i, hi⟩ ≤ l.get ⟨j, hj⟩ → i ≤ j

/-- `i` is the position of the first occurrence of the minimum of `l`. -/
def IsFirstArgmin (l : List ℚ) (i : ℕ) : Prop :=
  ∃ hi : i < l.length,
    (∀ j (hj : j < l.length), l.get ⟨i, hi⟩ ≤ l.get ⟨j, hj⟩) ∧
    ∀ j (hj : j < l.length), l.get ⟨j, hj⟩ ≤ l.get ⟨i, hi⟩ → i ≤ j

/-! ### Operation traces over a `Models` object -/

/-- One call on a `Models` object. -/
inductive MOp where
  | create_new_efficientnet_b0 (num_classes : ℕ)
  | create_new_efficientnet_b1 (num_classes : ℕ)
  | create_new_mobilenet_v3_large (num_classes : ℕ)
  | create_new_shufflenet_v2_x2_0 (num_classes : ℕ)
  | prepare_finetuned_efficientnet_b0 (model_name : String) (num_classes : ℕ)
  | prepare_finetuned_efficientnet_b1 (model_name : String) (num_classes : ℕ)
  | prepare_finetuned_mobilenet_v3_large (model_name : String) (num_classes : ℕ)
  | prepare_finetuned_shufflenet_v2_x2_0 (model_name : String) (num_classes : ℕ)
  | plot_training_metrics (checkpoint_path name_of_the_net : String)
deriving DecidableEq

/-- The model name of a fine-tuned preparation call, `none` for other calls. -/
def MOp.prepName : MOp → Option String
  | .prepare_finetuned_efficientnet_b0 m _ => some m
  | .prepare_finetuned_efficientnet_b1 m _ => some m
  | .prepare_finetuned_mobilenet_v3_large m _ => some m
  | .prepare_finetuned_shufflenet_v2_x2_0 m _ => some m
  | _ => none

/-- The model names passed to the fine-tuned preparation calls of a trace. -/
def prepNames (ops : List MOp) : List String :=
  ops.filterMap MOp.prepName

/-- The `Models` object state after one call (`none` when the call raises an
uncaught exception).  A `create_new_*` call builds and returns a fresh model,
discarded by the trace, and never touches `self`; `plot_training_metrics`
only writes an image file; the `prepare_finetuned_*` calls are the only ones
whose body assigns to `self.model_weights`. -/
def Models.step (tv : Torchvision) (fs : FS) (self : Models) : MOp → Option Models
  | .create_new_efficientnet_b0 k =>
      let _created := Models.create_new_efficientnet_b0 tv self k
      some self
  | .create_new_efficientnet_b1 k =>
      let _created := Models.create_new_efficientnet_b1 tv self k
      some self
  | .create_new_mobilenet_v3_large k =>
      let _created := Models.create_new_mobilenet_v3_large tv self k
      some self
  | .create_new_shufflenet_v2_x2_0 k =>
      let _created := Models.create_new_shufflenet_v2_x2_0 tv self k
      some self
  | .prepare_finetuned_efficientnet_b0 m k =>
      (Models.prepare_finetuned_efficientnet_b0 tv fs self m k).map Prod.snd
  | .prepare_finetuned_efficientnet_b1 m k =>
      (Models.prepare_finetuned_efficientnet_b1 tv fs self m k).map Prod.snd
  | .prepare_finetuned_mobilenet_v3_large m k =>
      (Models.prepare_finetuned_mobilenet_v3_large tv fs self m k).map Prod.snd
  | .prepare_finetuned_shufflenet_v2_x2_0 m k =>
      (Models.prepare_finetuned_shufflenet_v2_x2_0 tv fs self m k).map Prod.snd
  | .plot_training_metrics cp n =>
      (Models.plot_training_metrics fs self cp n).map fun _ => self

/-- Run a sequence of calls on a `Models` object; `none` as soon as one
raises (the exception is fatal to the calling process). -/
def Models.run (tv : Torchvision) (fs : FS) (self : Models) : List MOp → Option Models
  | [] => some self
  | op :: ops =>
      (Models.step tv fs self op).bind fun self' => Models.run tv fs self' ops

/-! ### A small concrete world instantiating the environment -/

/-- A pretrained base network of feature width `w` with its 1000-way
ImageNet head. -/
def baseNet (w : ℕ) : TVModel :=
  { head := ⟨w, 1000⟩, loaded := none, training := true, device := "cpu" }

/-- A concrete `torchvision` factory. -/
def sampleTV : Torchvision :=
  { efficientnet_b0 := baseNet 1280
    efficientnet_b1 := baseNet 1280
    mobilenet_v3_large := baseNet 1280
    shufflenet_v2_x2_0 := baseNet 2048 }

/-- A state dict saved from an 8-class head of width 1280. -/
def sd1280 : StateDict := ⟨⟨1280, 8⟩, 1⟩

/-- A state dict saved from an 8-class head of width 2048. -/
def sd2048 : StateDict := ⟨⟨2048, 8⟩, 2⟩

/-- A well-formed two-epoch checkpoint for the width-1280 architectures. -/
def ckptA : Checkpoint :=
  { model_state_dict := some sd1280
    best_val_f1 := some 2
    train_loss := some [3, 2]
    val_loss := some [4, 3]
    f1_metric_val := some [1, 2] }

/-- A well-formed single-epoch checkpoint for the width-2048 architecture. -/
def ckptS : Checkpoint :=
  { model_state_dict := some sd2048
    best_val_f1 := some 3
    train_loss := some [3]
    val_loss := some [4]
    f1_metric_val := some [1] }

/-- A checkpoint whose earliest minimum of `val_loss` (epoch 1) differs from
the earliest maximum of `f1_metric_val` (epoch 2). -/
def ckptC3 : Checkpoint :=
  { model_state_dict := none
    best_val_f1 := none
    train_loss := some [5, 4]
    val_loss := some [2, 3]
    f1_metric_val := some [1, 2] }

/-- A deficient checkpoint: both expected dict keys missing, all three
sequences empty. -/
def ckptBad : Checkpoint :=
  { model_state_dict := none
    best_val_f1 := none
    train_loss := some []
    val_loss := some []
    f1_metric_val := some [] }

/-- A checkpoint whose maximum F1 value `2` occurs at two epochs (1 and 3);
the first minimum of `val_loss` is at epoch 2. -/
def ckptTie : Checkpoint :=
  { model_state_dict := none
    best_val_f1 := none
    train_loss := some [3, 2, 1]
    val_loss := some [3, 2, 2]
    f1_metric_val := some [2, 1, 2] }

/-- A concrete filesystem with checkpoints under the download folder and two
extra checkpoint files. -/
def sampleFS : FS := fun p =>
  if p = "/repo/src/data/models/net_best_f1.pth" then some ckptA
  else if p = "/repo/src/data/models/snet_best_f1.pth" then some ckptS
  else if p = "/repo/src/data/models/bad_best_f1.pth" then some ckptBad
  else if p = "ckpt.pth" then some ckptC3
  else if p = "tie.pth" then some ckptTie
  else none

/-- The `Models` object right after `__init__`. -/
def s0 : Models := Models.init "/repo/src" "cpu"

/-- The model `prepare_finetuned_efficientnet_b0(sampleFS, s0, "net", 8)` returns. -/
def preparedNet : TVModel :=
  { head := ⟨1280, 8⟩, loaded := some sd1280, training := false, device := "cpu" }

/-- The object state after that call: `"net"` recorded with best F1 `2`. -/
def s1 : Models :=
  { root_folder := "/repo/src"
    download_folder := "/repo/src/data/models"
    size_tuple := (224, 224)
    device := "cpu"
    model_weights := [("net", 2)] }

/-- What `view_model.plot_training_metrics` renders from `ckptC3`. -/
def outC3 : VMPlotOutput :=
  { train_series := [5, 4]
    val_series := [2, 3]
    f1_series := [1, 2]
    marker_on := [0]
    ann_text_epoch := 2
    ann_text_value := 2
    ann_x := 1
    ann_y := 2
    title_epochs := 2
    saved_path := "out/net.png" }

/-- What `Models.plot_training_metrics` renders from `ckptA` for net `"net"`. -/
def outA : PlotOutput :=
  { train_series := [3, 2]
    val_series := [4, 3]
    f1_series := [1, 2]
    marker_on := [1]
    ann_epoch := 2
    ann_x := 2
    ann_y := 2
    title_epochs := 2
    saved_path := "/repo/src/data/images/net.png" }

/-- What `Models.plot_training_metrics` renders from `ckptTie` for net `"t"`. -/
def outTie : PlotOutput :=
  { train_series := [3, 2, 1]
    val_series := [3, 2, 2]
    f1_series := [2, 1, 2]
    marker_on := [0]
    ann_epoch := 1
    ann_x := 1
    ann_y := 2
    title_epochs := 3
    saved_path := "/repo/src/data/images/t.png" }

/-- What `view_model.plot_training_metrics` renders from `ckptTie`. -/
def outTieV : VMPlotOutput :=
  { train_series := [3, 2, 1]
    val_series := [3, 2, 2]
    f1_series := [2, 1, 2]
    marker_on := [1]
    ann_text_epoch := 1
    ann_text_value := 2
    ann_x := 2
    ann_y := 2
    title_epochs := 3
    saved_path := "out/t.png" }

/-- A trace of calls: one model creation, one fine-tuned preparation of
`"net"`, one plot. -/
def traceC8 : List MOp :=
  [MOp.create_new_efficientnet_b0 8,
   MOp.prepare_finetuned_efficientnet_b0 "net" 8,
   MOp.plot_training_metrics "/repo/src/data/models/net_best_f1.pth" "net"]

/-! ### Properties of the Python list primitives -/

theorem le_foldMax_self (x : ℚ) (xs : List ℚ) : x ≤ foldMax x xs := by
  induction xs generalizing x with
  | nil => exact le_refl x
  | cons y ys ih => exact le_trans (le_max_left x y) (ih (max x y))

theorem foldMax_mem (x : ℚ) (xs : List ℚ) : foldMax x xs = x ∨ foldMax x xs ∈ xs := by
  induction xs generalizing x with
  | nil => exact Or.inl rfl
  | cons y ys ih =>
    rcases ih (max x y) with h | h
    · rcases max_choice x y with hx | hy
      · exact Or.inl (by rw [foldMax, h, hx])
      · exact Or.inr (by rw [foldMax, h, hy]; exact List.mem_cons_self y ys)
    · exact Or.inr (List.mem_cons_of_mem y (by rw [foldMax]; exact h))

theorem le_foldMax_of_mem {a : ℚ} {xs : List ℚ} (x : ℚ) (h : a ∈ xs) :
    a ≤ foldMax x xs := by
  induction xs generalizing x with
  | nil => cases h
  | cons y ys ih =>
    rcases List.mem_cons.mp h with rfl | hmem
    · exact le_trans (le_max_right x a) (le_foldMax_self (max x a) ys)
    · exact ih (max x y) hmem

theorem foldMin_le_self (x : ℚ) (xs : List ℚ) : foldMin x xs ≤ x := by
  induction xs generalizing x with
  | nil => exact le_refl x
  | cons y ys ih => exact le_trans (ih (min x y)) (min_le_left x y)

theorem foldMin_mem (x : ℚ) (xs : List ℚ) : foldMin x xs = x ∨ foldMin x xs ∈ xs := by
  induction xs generalizing x with
  | nil => exact Or.inl rfl
  | cons y ys ih =>
    rcases ih (min x y) with h | h
    · rcases min_choice x y with hx | hy
      · exact Or.inl (by rw [foldMin, h, hx])
      · exact Or.inr (by rw [foldMin, h, hy]; exact List.mem_cons_self y ys)
    · exact Or.inr (List.mem_cons_of_mem y (by rw [foldMin]; exact h))

theorem foldMin_le_of_mem {a : ℚ} {xs : List ℚ} (x : ℚ) (h : a ∈ xs) :
    foldMin x xs ≤ a := by
  induction xs generalizing x with
  | nil => cases h
  | cons y ys ih =>
    rcases List.mem_cons.mp h with rfl | hmem
    · exact le_trans (foldMin_le_self (min x a) ys) (min_le_right x a)
    · exact ih (min x y) hmem

theorem pyMax_isSome {l : List ℚ} (h : l ≠ []) : (pyMax l).isSome := by
  cases l with
  | nil => exact absurd rfl h
  | cons x xs => rfl

theorem pyMax_mem {l : List ℚ} {m : ℚ} (h : pyMax l = some m) : m ∈ l := by
  cases l with
  | nil => cases h
  | cons x xs =>
    cases h
    rcases foldMax_mem x xs with h | h
    · rw [h]; exact List.mem_cons_self x xs
    · exact List.mem_cons_of_mem x h

theorem le_pyMax {l : List ℚ} {m : ℚ} (h : pyMax l = some m) : ∀ a ∈ l, a ≤ m := by
  cases l with
  | nil => cases h
  | cons x xs =>
    cases h
    intro a ha
    rcases List.mem_cons.mp ha with rfl | hmem
    · exact le_foldMax_self a xs
    · exact le_foldMax_of_mem x hmem

theorem pyMin_isSome {l : List ℚ} (h : l ≠ []) : (pyMin l).isSome := by
  cases l with
  | nil => exact absurd rfl h
  | cons x xs => rfl

theorem pyMin_mem {l : List ℚ} {m : ℚ} (h : pyMin l = some m) : m ∈ l := by
  cases l with
  | nil => cases h
  | cons x xs =>
    cases h
    rcases foldMin_mem x xs with h | h
    · rw [h]; exact List.mem_cons_self x xs
    · exact List.mem_cons_of_mem x h

theorem pyMin_le {l : List ℚ} {m : ℚ} (h : pyMin l = some m) : ∀ a ∈ l, m ≤ a := by
  cases l with
  | nil => cases h
  | cons x xs =>
    cases h
    intro a ha
    rcases List.mem_cons.mp ha with rfl | hmem
    · exact foldMin_le_self a xs
    · exact foldMin_le_of_mem x hmem

theorem pyIndex_isSome_of_mem {l : List ℚ} {a : ℚ} (h : a ∈ l) :
    (pyIndex l a).isSome := by
  induction l with
  | nil => cases h
  | cons x xs ih =>
    rw [pyIndex]
    by_cases hx : x = a
    · rw [if_pos hx]; rfl
    · rw [if_neg hx]
      have hmem : a ∈ xs := by
        rcases List.mem_cons.mp h with rfl | hmem
        · exact absurd rfl hx
        · exact hmem
      rcases Option.isSome_iff_exists.mp (ih hmem) with ⟨i, hi⟩
      rw [hi]
      rfl

theorem pyIndex_get {l : List ℚ} {a : ℚ} {i : ℕ} (h : pyIndex l a = some i) :
    ∃ hi : i < l.length, l.get ⟨i, hi⟩ = a := by
  induction l generalizing i with
  | nil => cases h
  | cons x xs ih =>
    rw [pyIndex] at h
    by_cases hx : x = a
    · rw [if_pos hx] at h
      cases h
      exact ⟨Nat.succ_pos _, hx⟩
    · rw [if_neg hx] at h
      cases hopt : pyIndex xs a with
      | none => rw [hopt] at h; cases h
      | some j =>
        rw [hopt] at h
        cases h
        rcases ih hopt with ⟨hj, hget⟩
        exact ⟨Nat.succ_lt_succ hj, hget⟩

theorem pyIndex_first {l : List ℚ} {a : ℚ} {i : ℕ} (h : pyIndex l a = some i) :
    ∀ j (hj : j < l.length), l.get ⟨j, hj⟩ = a → i ≤ j := by
  induction l generalizing i with
  | nil => cases h
  | cons x xs ih =>
    rw [pyIndex] at h
    by_cases hx : x = a
    · rw [if_pos hx] at h
      cases h
      intro j hj hget
      exact Nat.zero_le j
    · rw [if_neg hx] at h
      cases hopt : pyIndex xs a with
      | none => rw [hopt] at h; cases h
      | some k =>
        rw [hopt] at h
        cases h
        intro j hj hget
        cases j with
        | zero => exact absurd hget hx
        | succ j' =>
          exact Nat.succ_le_succ (ih hopt j' (Nat.lt_of_succ_lt_succ hj) hget)

/-! ### Properties of the Python dict operations -/

theorem dictLookup_dictInsert_self (d : List (String × ℚ)) (k : String) (v : ℚ) :
    dictLookup (dictInsert d k v) k = some v := by
  induction d with
  | nil => simp [dictInsert, dictLookup]
  | cons p rest ih =>
    obtain ⟨k', v'⟩ := p
    by_cases hk : k' = k
    · simp [dictInsert, dictLookup, hk]
    · simp [dictInsert, dictLookup, hk, ih]

theorem dictInsert_idem (d : List (String × ℚ)) (k : String) (v : ℚ) :
    dictInsert (dictInsert d k v) k v = dictInsert d k v := by
  induction d with
  | nil => simp [dictInsert]
  | cons p rest ih =>
    obtain ⟨k', v'⟩ := p
    by_cases hk : k' = k
    · simp [dictInsert, hk]
    · simp [dictInsert, hk, ih]

theorem mem_keys_dictInsert (d : List (String × ℚ)) (k : String) (v : ℚ) (key : String) :
    key ∈ (dictInsert d k v).map Prod.fst ↔ key ∈ d.map Prod.fst ∨ key = k := by
  induction d with
  | nil => simp [dictInsert]
  | cons p rest ih =>
    obtain ⟨k', v'⟩ := p
    by_cases hk : k' = k
    · subst hk
      simp [dictInsert]
      tauto
    · simp [dictInsert, hk, ih]
      tauto

/-! ### First argmax / argmin positions -/

theorem isFirstArgmax_of_pyMax_pyIndex {l : List ℚ} {m : ℚ} {i : ℕ}
    (hm : pyMax l = some m) (hi : pyIndex l m = some i) : IsFirstArgmax l i := by
  rcases pyIndex_get hi with ⟨hlen, hget⟩
  refine ⟨hlen, ?_, ?_⟩
  · intro j hj
    rw [hget]
    exact le_pyMax hm _ (l.get_mem j hj)
  · intro j hj hle
    refine pyIndex_first hi j hj ?_
    have h1 : l.get ⟨j, hj⟩ ≤ m := le_pyMax hm _ (l.get_mem j hj)
    have h2 : m ≤ l.get ⟨j, hj⟩ := by rw [← hget]; exact hle
    exact le_antisymm h1 h2

theorem isFirstArgmin_of_pyMin_pyIndex {l : List ℚ} {m : ℚ} {i : ℕ}
    (hm : pyMin l = some m) (hi : pyIndex l m = some i) : IsFirstArgmin l i := by
  rcases pyIndex_get hi with ⟨hlen, hget⟩
  refine ⟨hlen, ?_, ?_⟩
  · intro j hj
    rw [hget]
    exact pyMin_le hm _ (l.get_mem j hj)
  · intro j hj hle
    refine pyIndex_first hi j hj ?_
    have h1 : m ≤ l.get ⟨j, hj⟩ := pyMin_le hm _ (l.get_mem j hj)
    have h2 : l.get ⟨j, hj⟩ ≤ m := by rw [← hget]; exact hle
    exact le_antisymm h2 h1

theorem pyMax_pyIndex_exists {l : List ℚ} (h : l ≠ []) :
    ∃ m i, pyMax l = some m ∧ pyIndex l m = some i := by
  rcases Option.isSome_iff_exists.mp (pyMax_isSome h) with ⟨m, hm⟩
  rcases Option.isSome_iff_exists.mp (pyIndex_isSome_of_mem (pyMax_mem hm)) with ⟨i, hi⟩
  exact ⟨m, i, hm, hi⟩

theorem pyMin_pyIndex_exists {l : List ℚ} (h : l ≠ []) :
    ∃ m i, pyMin l = some m ∧ pyIndex l m = some i := by
  rcases Option.isSome_iff_exists.mp (pyMin_isSome h) with ⟨m, hm⟩
  rcases Option.isSome_iff_exists.mp (pyIndex_isSome_of_mem (pyMin_mem hm)) with ⟨i, hi⟩
  exact ⟨m, i, hm, hi⟩

/-! ### Unfolding lemmas for the translated operations -/

theorem prepare_finetuned_core_eq_some_iff {base : TVModel} {fs : FS} {self : Models}
    {model_name : String} {num_classes : ℕ} {model : TVModel} {self' : Models} :
    prepare_finetuned_core base fs self model_name num_classes = some (model, self') ↔
    ∃ checkpoint sd v m2,
      fs (self.download_folder ++ "/" ++ model_name ++ "_best_f1.pth") = some checkpoint ∧
      checkpoint.model_state_dict = some sd ∧
      load_state_dict (replace_head base num_classes) sd = some m2 ∧
      checkpoint.best_val_f1 = some v ∧
      model = model_to (model_eval m2) self.device ∧
      self' = { self with model_weights := dictInsert self.model_weights model_name v } := by
  simp only [prepare_finetuned_core, Option.bind_eq_some, Option.some.injEq, Prod.mk.injEq]
  constructor
  · rintro ⟨c, hc, sd, hsd, m2, hm2, v, hv, hmod, hself⟩
    exact ⟨c, sd, v, m2, hc, hsd, hm2, hv, hmod.symm, hself.symm⟩
  · rintro ⟨c, sd, v, m2, hc, hsd, hm2, hv, hmod, hself⟩
    exact ⟨c, hc, sd, hsd, m2, hm2, v, hv, hmod.symm, hself.symm⟩

theorem models_plot_eq_some_iff {fs : FS} {self : Models} {cp name : String} {o : PlotOutput} :
    Models.plot_training_metrics fs self cp name = some o ↔
    ∃ c lv lt lf mx idx,
      fs cp = some c ∧ c.val_loss = some lv ∧ c.train_loss = some lt ∧
      c.f1_metric_val = some lf ∧ pyMax lf = some mx ∧ pyIndex lf mx = some idx ∧
      o = { train_series := lt, val_series := lv, f1_series := lf, marker_on := [idx],
            ann_epoch := idx + 1, ann_x := idx + 1, ann_y := mx, title_epochs := lt.length,
            saved_path := self.root_folder ++ "/data/images/" ++ name ++ ".png" } := by
  simp only [Models.plot_training_metrics, Option.bind_eq_some, Option.some.injEq]
  constructor
  · rintro ⟨c, hc, lv, hlv, lt, hlt, lf, hlf, mx, hmx, idx, hidx, ho⟩
    exact ⟨c, lv, lt, lf, mx, idx, hc, hlv, hlt, hlf, hmx, hidx, ho.symm⟩
  · rintro ⟨c, lv, lt, lf, mx, idx, hc, hlv, hlt, hlf, hmx, hidx, ho⟩
    exact ⟨c, hc, lv, hlv, lt, hlt, lf, hlf, mx, hmx, idx, hidx, ho.symm⟩

theorem viewmodel_plot_eq_some_iff {fs : FS} {cp name dir : String} {o : VMPlotOutput} :
    ViewModel.plot_training_metrics fs cp name dir = some o ↔
    ∃ c lv lt lf mn mnIdx mx mxIdx,
      fs cp = some c ∧ c.val_loss = some lv ∧ c.train_loss = some lt ∧
      c.f1_metric_val = some lf ∧ pyMin lv = some mn ∧ pyIndex lv mn = some mnIdx ∧
      pyMax lf = some mx ∧ pyIndex lf mx = some mxIdx ∧
      o = { train_series := lt, val_series := lv, f1_series := lf, marker_on := [mnIdx],
            ann_text_epoch := mxIdx + 1, ann_text_value := mx, ann_x := mnIdx + 1,
            ann_y := mn, title_epochs := lt.length,
            saved_path := dir ++ "/" ++ name ++ ".png" } := by
  simp only [ViewModel.plot_training_metrics, Option.bind_eq_some, Option.some.injEq]
  constructor
  · rintro ⟨c, hc, lv, hlv, lt, hlt, lf, hlf, mn, hmn, mnI, hmnI, mx, hmx, mxI, hmxI, ho⟩
    exact ⟨c, lv, lt, lf, mn, mnI, mx, mxI, hc, hlv, hlt, hlf, hmn, hmnI, hmx, hmxI, ho.symm⟩
  · rintro ⟨c, lv, lt, lf, mn, mnI, mx, mxI, hc, hlv, hlt, hlf, hmn, hmnI, hmx, hmxI, ho⟩
    exact ⟨c, hc, lv, hlv, lt, hlt, lf, hlf, mn, hmn, mnI, hmnI, mx, hmx, mxI, hmxI, ho.symm⟩

/-! ### Further helper lemmas about the translated operations -/

theorem load_state_dict_head {m : TVModel} {sd : StateDict} {m2 : TVModel}
    (h : load_state_dict m sd = some m2) : m2.head = m.head := by
  unfold load_state_dict at h
  split at h
  · cases h; rfl
  · cases h

theorem prepare_finetuned_core_fs_congr (base : TVModel) {fs fs' : FS} (self : Models)
    (m : String) (k : ℕ)
    (h : fs (self.download_folder ++ "/" ++ m ++ "_best_f1.pth") =
         fs' (self.download_folder ++ "/" ++ m ++ "_best_f1.pth")) :
    prepare_finetuned_core base fs self m k = prepare_finetuned_core base fs' self m k := by
  unfold prepare_finetuned_core
  rw [h]

theorem prepare_finetuned_core_eq_none
    {base : TVModel} {fs : FS} {self : Models} {m : String} {k : ℕ}
    (h : ∀ model self', prepare_finetuned_core base fs self m k ≠ some (model, self')) :
    prepare_finetuned_core base fs self m k = none := by
  cases hres : prepare_finetuned_core base fs self m k with
  | none => rfl
  | some p => exact absurd hres (h p.1 p.2)

theorem prepare_finetuned_core_none_of_missing_file
    {base : TVModel} {fs : FS} {self : Models} {m : String} {k : ℕ}
    (hfs : fs (self.download_folder ++ "/" ++ m ++ "_best_f1.pth") = none) :
    prepare_finetuned_core base fs self m k = none := by
  apply prepare_finetuned_core_eq_none
  intro model self' hsome
  rcases prepare_finetuned_core_eq_some_iff.mp hsome with ⟨c, _, _, _, hc, _⟩
  rw [hfs] at hc
  cases hc

theorem prepare_finetuned_core_none_of_missing_sd
    {base : TVModel} {fs : FS} {self : Models} {m : String} {k : ℕ} {c : Checkpoint}
    (hfs : fs (self.download_folder ++ "/" ++ m ++ "_best_f1.pth") = some c)
    (hsd : c.model_state_dict = none) :
    prepare_finetuned_core base fs self m k = none := by
  apply prepare_finetuned_core_eq_none
  intro model self' hsome
  rcases prepare_finetuned_core_eq_some_iff.mp hsome with ⟨c', sd, _, _, hc, hsd', _⟩
  rw [hfs, Option.some.injEq] at hc
  subst hc
  rw [hsd] at hsd'
  cases hsd'

theorem prepare_finetuned_core_none_of_missing_best
    {base : TVModel} {fs : FS} {self : Models} {m : String} {k : ℕ} {c : Checkpoint}
    (hfs : fs (self.download_folder ++ "/" ++ m ++ "_best_f1.pth") = some c)
    (hbv : c.best_val_f1 = none) :
    prepare_finetuned_core base fs self m k = none := by
  apply prepare_finetuned_core_eq_none
  intro model self' hsome
  rcases prepare_finetuned_core_eq_some_iff.mp hsome with ⟨c', _, v, _, hc, _, _, hv, _⟩
  rw [hfs, Option.some.injEq] at hc
  subst hc
  rw [hbv] at hv
  cases hv

theorem prepare_finetuned_core_idem
    {base : TVModel} {fs : FS} {self : Models} {m : String} {k : ℕ}
    {model : TVModel} {self₁ : Models}
    (h : prepare_finetuned_core base fs self m k = some (model, self₁)) :
    prepare_finetuned_core base fs self₁ m k = some (model, self₁) := by
  rcases prepare_finetuned_core_eq_some_iff.mp h with
    ⟨c, sd, v, m2, hc, hsd, hm2, hv, hmod, hself⟩
  subst hself
  apply prepare_finetuned_core_eq_some_iff.mpr
  refine ⟨c, sd, v, m2, hc, hsd, hm2, hv, hmod, ?_⟩
  show ({ self with model_weights := dictInsert self.model_weights m v } : Models) =
    { self with model_weights := dictInsert (dictInsert self.model_weights m v) m v }
  rw [dictInsert_idem]

theorem models_plot_eq_none {fs : FS} {self : Models} {cp n : String}
    (h : ∀ o, Models.plot_training_metrics fs self cp n ≠ some o) :
    Models.plot_training_metrics fs self cp n = none := by
  cases hres : Models.plot_training_metrics fs self cp n with
  | none => rfl
  | some o => exact absurd hres (h o)

theorem viewmodel_plot_eq_none {fs : FS} {cp n dir : String}
    (h : ∀ o, ViewModel.plot_training_metrics fs cp n dir ≠ some o) :
    ViewModel.plot_training_metrics fs cp n dir = none := by
  cases hres : ViewModel.plot_training_metrics fs cp n dir with
  | none => rfl
  | some o => exact absurd hres (h o)

theorem models_plot_none_of_missing_file {fs : FS} {self : Models} {cp n : String}
    (hfs : fs cp = none) : Models.plot_training_metrics fs self cp n = none := by
  apply models_plot_eq_none
  intro o hsome
  rcases models_plot_eq_some_iff.mp hsome with ⟨c, _, _, _, _, _, hc, _⟩
  rw [hfs] at hc
  cases hc

theorem viewmodel_plot_none_of_missing_file {fs : FS} {cp n dir : String}
    (hfs : fs cp = none) : ViewModel.plot_training_metrics fs cp n dir = none := by
  apply viewmodel_plot_eq_none
  intro o hsome
  rcases viewmodel_plot_eq_some_iff.mp hsome with ⟨c, _, _, _, _, _, _, _, hc, _⟩
  rw [hfs] at hc
  cases hc

theorem models_plot_none_of_missing_key {fs : FS} {self : Models} {cp n : String}
    {c : Checkpoint} (hfs : fs cp = some c)
    (hkey : c.val_loss = none ∨ c.train_loss = none ∨ c.f1_metric_val = none) :
    Models.plot_training_metrics fs self cp n = none := by
  apply models_plot_eq_none
  intro o hsome
  rcases models_plot_eq_some_iff.mp hsome with ⟨c', lv, lt, lf, _, _, hc, hlv, hlt, hlf, _⟩
  rw [hfs, Option.some.injEq] at hc
  subst hc
  rcases hkey with hk | hk | hk
  · rw [hk] at hlv; cases hlv
  · rw [hk] at hlt; cases hlt
  · rw [hk] at hlf; cases hlf

theorem viewmodel_plot_none_of_missing_key {fs : FS} {cp n dir : String}
    {c : Checkpoint} (hfs : fs cp = some c)
    (hkey : c.val_loss = none ∨ c.train_loss = none ∨ c.f1_metric_val = none) :
    ViewModel.plot_training_metrics fs cp n dir = none := by
  apply viewmodel_plot_eq_none
  intro o hsome
  rcases viewmodel_plot_eq_some_iff.mp hsome with
    ⟨c', lv, lt, lf, _, _, _, _, hc, hlv, hlt, hlf, _⟩
  rw [hfs, Option.some.injEq] at hc
  subst hc
  rcases hkey with hk | hk | hk
  · rw [hk] at hlv; cases hlv
  · rw [hk] at hlt; cases hlt
  · rw [hk] at hlf; cases hlf

theorem models_plot_none_of_empty_f1 {fs : FS} {self : Models} {cp n : String}
    {c : Checkpoint} (hfs : fs cp = some c) (hf : c.f1_metric_val = some []) :
    Models.plot_training_metrics fs self cp n = none := by
  apply models_plot_eq_none
  intro o hsome
  rcases models_plot_eq_some_iff.mp hsome with ⟨c', _, _, lf, mx, _, hc, _, _, hlf, hmx, _⟩
  rw [hfs, Option.some.injEq] at hc
  subst hc
  rw [hf, Option.some.injEq] at hlf
  subst hlf
  cases hmx

theorem viewmodel_plot_none_of_empty_f1 {fs : FS} {cp n dir : String}
    {c : Checkpoint} (hfs : fs cp = some c) (hf : c.f1_metric_val = some []) :
    ViewModel.plot_training_metrics fs cp n dir = none := by
  apply viewmodel_plot_eq_none
  intro o hsome
  rcases viewmodel_plot_eq_some_iff.mp hsome with
    ⟨c', _, _, lf, _, _, mx, _, hc, _, _, hlf, _, _, hmx, _⟩
  rw [hfs, Option.some.injEq] at hc
  subst hc
  rw [hf, Option.some.injEq] at hlf
  subst hlf
  cases hmx

theorem viewmodel_plot_none_of_empty_val {fs : FS} {cp n dir : String}
    {c : Checkpoint} (hfs : fs cp = some c) (hv : c.val_loss = some []) :
    ViewModel.plot_training_metrics fs cp n dir = none := by
  apply viewmodel_plot_eq_none
  intro o hsome
  rcases viewmodel_plot_eq_some_iff.mp hsome with
    ⟨c', lv, _, _, mn, _, _, _, hc, hlv, _, _, hmn, _⟩
  rw [hfs, Option.some.injEq] at hc
  subst hc
  rw [hv, Option.some.injEq] at hlv
  subst hlv
  cases hmn

theorem step_prep_keys {fs : FS} {self s₁ : Models}
    {base : TVModel} {m : String} {k : ℕ}
    (h : (prepare_finetuned_core base fs self m k).map Prod.snd = some s₁) :
    ∀ key, key ∈ s₁.model_weights.map Prod.fst ↔
      key ∈ self.model_weights.map Prod.fst ∨ key = m := by
  rcases Option.map_eq_some'.mp h with ⟨p, hp, hsnd⟩
  obtain ⟨model, s'⟩ := p
  rcases prepare_finetuned_core_eq_some_iff.mp hp with ⟨c, sd, v, m2, _, _, _, _, _, hself⟩
  intro key
  rw [← hsnd]
  show key ∈ s'.model_weights.map Prod.fst ↔ _
  rw [hself]
  exact mem_keys_dictInsert self.model_weights m v key

theorem run_keys (tv : Torchvision) (fs : FS) (ops : List MOp) :
    ∀ self self' : Models, Models.run tv fs self ops = some self' →
    ∀ key, key ∈ self'.model_weights.map Prod.fst ↔
      (key ∈ self.model_weights.map Prod.fst ∨ key ∈ prepNames ops) := by
  induction ops with
  | nil =>
    intro self self' h key
    rw [Models.run, Option.some.injEq] at h
    subst h
    simp [prepNames]
  | cons op ops ih =>
    intro self self' h key
    rw [Models.run] at h
    rcases Option.bind_eq_some.mp h with ⟨s₁, hstep, hrun⟩
    have hops := ih s₁ self' hrun key
    cases op with
    | create_new_efficientnet_b0 k =>
      rw [Models.step, Option.some.injEq] at hstep
      subst hstep
      rw [hops]
      simp [prepNames, MOp.prepName]
    | create_new_efficientnet_b1 k =>
      rw [Models.step, Option.some.injEq] at hstep
      subst hstep
      rw [hops]
      simp [prepNames, MOp.prepName]
    | create_new_mobilenet_v3_large k =>
      rw [Models.step, Option.some.injEq] at hstep
      subst hstep
      rw [hops]
      simp [prepNames, MOp.prepName]
    | create_new_shufflenet_v2_x2_0 k =>
      rw [Models.step, Option.some.injEq] at hstep
      subst hstep
      rw [hops]
      simp [prepNames, MOp.prepName]
    | plot_training_metrics cp n =>
      rw [Models.step] at hstep
      rcases Option.map_eq_some'.mp hstep with ⟨o, _, hs⟩
      subst hs
      rw [hops]
      simp [prepNames, MOp.prepName]
    | prepare_finetuned_efficientnet_b0 m k =>
      rw [Models.step] at hstep
      unfold Models.prepare_finetuned_efficientnet_b0 at hstep
      rw [hops, step_prep_keys hstep key]
      simp [prepNames, MOp.prepName, List.filterMap_cons]
      tauto
    | prepare_finetuned_efficientnet_b1 m k =>
      rw [Models.step] at hstep
      unfold Models.prepare_finetuned_efficientnet_b1 at hstep
      rw [hops, step_prep_keys hstep key]
      simp [prepNames, MOp.prepName, List.filterMap_cons]
      tauto
    | prepare_finetuned_mobilenet_v3_large m k =>
      rw [Models.step] at hstep
      unfold Models.prepare_finetuned_mobilenet_v3_large at hstep
      rw [hops, step_prep_keys hstep key]
      simp [prepNames, MOp.prepName, List.filterMap_cons]
      tauto
    | prepare_finetuned_shufflenet_v2_x2_0 m k =>
      rw [Models.step] at hstep
      unfold Models.prepare_finetuned_shufflenet_v2_x2_0 at hstep
      rw [hops, step_prep_keys hstep key]
      simp [prepNames, MOp.prepName, List.filterMap_cons]
      tauto

/-! ### The claims -/

/-- C1: for every fine-tuned model preparation call
(`prepare_finetuned_efficientnet_b0/b1`, `prepare_finetuned_mobilenet_v3_large`,
`prepare_finetuned_shufflenet_v2_x2_0`) with model name `m`, after the call
returns, the registry `self.model_weights` maps `m` to exactly the value
stored under the checkpoint's `best_val_f1` key. -/
theorem C1_registry_maps_to_best_val_f1
    (tv : Torchvision) (fs : FS) (self : Models) (m : String) (k : ℕ)
    (checkpoint : Checkpoint) (v : ℚ)
    (hfs : fs (self.download_folder ++ "/" ++ m ++ "_best_f1.pth") = some checkpoint)
    (hv : checkpoint.best_val_f1 = some v) :
    (∀ model self', Models.prepare_finetuned_efficientnet_b0 tv fs self m k =
        some (model, self') → dictLookup self'.model_weights m = some v) ∧
    (∀ model self', Models.prepare_finetuned_efficientnet_b1 tv fs self m k =
        some (model, self') → dictLookup self'.model_weights m = some v) ∧
    (∀ model self', Models.prepare_finetuned_mobilenet_v3_large tv fs self m k =
        some (model, self') → dictLookup self'.model_weights m = some v) ∧
    (∀ model self', Models.prepare_finetuned_shufflenet_v2_x2_0 tv fs self m k =
        some (model, self') → dictLookup self'.model_weights m = some v) := by
  have core : ∀ base (model : TVModel) (self' : Models),
      prepare_finetuned_core base fs self m k = some (model, self') →
      dictLookup self'.model_weights m = some v := by
    intro base model self' h
    rcases prepare_finetuned_core_eq_some_iff.mp h with
      ⟨c, sd, w, m2, hc, _, _, hw, _, hself⟩
    rw [hfs, Option.some.injEq] at hc
    subst hc
    rw [hv, Option.some.injEq] at hw
    subst hw
    rw [hself]
    exact dictLookup_dictInsert_self self.model_weights m v
  exact ⟨core tv.efficientnet_b0, core tv.efficientnet_b1,
    core tv.mobilenet_v3_large, core tv.shufflenet_v2_x2_0⟩

/-- C1 witness: loading `"net"` from the concrete filesystem records its
checkpoint's `best_val_f1` value `2` in the registry. -/
theorem C1_witness : dictLookup s1.model_weights "net" = some 2 :=
  (C1_registry_maps_to_best_val_f1 sampleTV sampleFS s0 "net" 8 ckptA 2 rfl rfl).1
    preparedNet s1 rfl

/-- C2: for every class count `K` passed as `num_classes` to any
model-creation operation (`create_new_*` or `prepare_finetuned_*`), the
returned model's final classification layer has output dimension exactly `K`. -/
theorem C2_final_layer_out_features
    (tv : Torchvision) (fs : FS) (self : Models) (m : String) (k : ℕ) :
    (Models.create_new_efficientnet_b0 tv self k).head.out_features = k ∧
    (Models.create_new_efficientnet_b1 tv self k).head.out_features = k ∧
    (Models.create_new_mobilenet_v3_large tv self k).head.out_features = k ∧
    (Models.create_new_shufflenet_v2_x2_0 tv self k).head.out_features = k ∧
    (∀ model self', Models.prepare_finetuned_efficientnet_b0 tv fs self m k =
        some (model, self') → model.head.out_features = k) ∧
    (∀ model self', Models.prepare_finetuned_efficientnet_b1 tv fs self m k =
        some (model, self') → model.head.out_features = k) ∧
    (∀ model self', Models.prepare_finetuned_mobilenet_v3_large tv fs self m k =
        some (model, self') → model.head.out_features = k) ∧
    (∀ model self', Models.prepare_finetuned_shufflenet_v2_x2_0 tv fs self m k =
        some (model, self') → model.head.out_features = k) := by
  have core : ∀ base (model : TVModel) (self' : Models),
      prepare_finetuned_core base fs self m k = some (model, self') →
      model.head.out_features = k := by
    intro base model self' h
    rcases prepare_finetuned_core_eq_some_iff.mp h with
      ⟨c, sd, w, m2, _, _, hm2, _, hmod, _⟩
    rw [hmod]
    show m2.head.out_features = k
    rw [load_state_dict_head hm2]
    rfl
  exact ⟨rfl, rfl, rfl, rfl, core tv.efficientnet_b0, core tv.efficientnet_b1,
    core tv.mobilenet_v3_large, core tv.shufflenet_v2_x2_0⟩

/-- C2 witness: with `K = 8` the created and the fine-tuned efficientnet-b0
both end in an 8-way layer. -/
theorem C2_witness :
    (Models.create_new_efficientnet_b0 sampleTV s0 8).head.out_features = 8 ∧
    preparedNet.head.out_features = 8 :=
  ⟨(C2_final_layer_out_features sampleTV sampleFS s0 "net" 8).1,
   (C2_final_layer_out_features sampleTV sampleFS s0 "net" 8).2.2.2.2.1
     preparedNet s1 rfl⟩

/-- C3 counterexample: on `ckptC3` the F1 sequence is `[1, 2]`, whose maximum
sits at (one-based) epoch `2`, yet `view_model.plot_training_metrics` places
the marker at index `0` and the annotated arrow at x-coordinate `1`: marker
and arrow follow the minimum of `val_loss`, not the argmax of
`f1_metric_val`. -/
theorem C3_counterexample :
    ViewModel.plot_training_metrics sampleFS "ckpt.pth" "net" "out" = some outC3 ∧
    outC3.f1_series = [1, 2] ∧
    pyMax ([1, 2] : List ℚ) = some 2 ∧
    pyIndex ([1, 2] : List ℚ) 2 = some 1 ∧
    outC3.ann_text_epoch = 1 + 1 ∧
    outC3.marker_on ≠ [1] ∧
    outC3.ann_x ≠ 1 + 1 :=
  ⟨rfl, rfl, rfl, rfl, rfl, by decide, by decide⟩

/-- C3 (amended): for `Models.plot_training_metrics` the marker, the epoch in
the annotation text and the arrow's x all sit at the first argmax of
`f1_metric_val`, one-based.  For the standalone `view_model` routine only the
epoch number printed in the annotation text is the (one-based) first argmax
of `f1_metric_val`; its marker and arrow sit at the first argmin of
`val_loss`. -/
theorem C3_annotated_best_epoch
    (fs : FS) (self : Models) (cp₁ n₁ cp₂ n₂ dir : String)
    (o : PlotOutput) (vo : VMPlotOutput)
    (ho : Models.plot_training_metrics fs self cp₁ n₁ = some o)
    (hvo : ViewModel.plot_training_metrics fs cp₂ n₂ dir = some vo) :
    (∃ i, IsFirstArgmax o.f1_series i ∧
      o.marker_on = [i] ∧ o.ann_epoch = i + 1 ∧ o.ann_x = i + 1) ∧
    (∃ i, IsFirstArgmax vo.f1_series i ∧ vo.ann_text_epoch = i + 1) ∧
    (∃ i, IsFirstArgmin vo.val_series i ∧ vo.marker_on = [i] ∧ vo.ann_x = i + 1) := by
  rcases models_plot_eq_some_iff.mp ho with
    ⟨c, lv, lt, lf, mx, idx, _, _, _, _, hmx, hidx, rfl⟩
  rcases viewmodel_plot_eq_some_iff.mp hvo with
    ⟨c', lv', lt', lf', mn, mnI, mx', mxI, _, _, _, _, hmn, hmnI, hmx', hmxI, rfl⟩
  exact ⟨⟨idx, isFirstArgmax_of_pyMax_pyIndex hmx hidx, rfl, rfl, rfl⟩,
    ⟨mxI, isFirstArgmax_of_pyMax_pyIndex hmx' hmxI, rfl⟩,
    ⟨mnI, isFirstArgmin_of_pyMin_pyIndex hmn hmnI, rfl, rfl⟩⟩

/-- C3 witness: the amended statement instantiated on the concrete world:
`Models.plot_training_metrics` on `ckptA` and `view_model` on `ckptC3`. -/
theorem C3_witness :
    (∃ i, IsFirstArgmax outA.f1_series i ∧
      outA.marker_on = [i] ∧ outA.ann_epoch = i + 1 ∧ outA.ann_x = i + 1) ∧
    (∃ i, IsFirstArgmax outC3.f1_series i ∧ outC3.ann_text_epoch = i + 1) ∧
    (∃ i, IsFirstArgmin outC3.val_series i ∧
      outC3.marker_on = [i] ∧ outC3.ann_x = i + 1) :=
  C3_annotated_best_epoch sampleFS s1 "/repo/src/data/models/net_best_f1.pth" "net"
    "ckpt.pth" "net" "out" outA outC3 rfl rfl

/-- C4: for every valid checkpoint whose three sequences are non-empty and of
equal length `N`, both plotting routines complete without raising and save to
`<root>/data/images/<name>.png` (method) resp. `<output_dir>/<name>.png`
(standalone); the Python functions return `None`, their observable effect
being the saved image. -/
theorem C4_plot_completes_and_saves
    (fs : FS) (self : Models) (cp name dir : String) (c : Checkpoint)
    (lt lv lf : List ℚ) (N : ℕ)
    (hc : fs cp = some c)
    (hlt : c.train_loss = some lt) (hlv : c.val_loss = some lv)
    (hlf : c.f1_metric_val = some lf)
    (hNt : lt.length = N) (hNv : lv.length = N) (hNf : lf.length = N)
    (hN : 0 < N) :
    (∃ o, Models.plot_training_metrics fs self cp name = some o ∧
      o.saved_path = self.root_folder ++ "/data/images/" ++ name ++ ".png") ∧
    (∃ o, ViewModel.plot_training_metrics fs cp name dir = some o ∧
      o.saved_path = dir ++ "/" ++ name ++ ".png") := by
  have hlf_ne : lf ≠ [] := by
    intro hnil
    rw [hnil] at hNf
    simp only [List.length_nil] at hNf
    omega
  have hlv_ne : lv ≠ [] := by
    intro hnil
    rw [hnil] at hNv
    simp only [List.length_nil] at hNv
    omega
  rcases pyMax_pyIndex_exists hlf_ne with ⟨mx, idx, hmx, hidx⟩
  rcases pyMin_pyIndex_exists hlv_ne with ⟨mn, mnI, hmn, hmnI⟩
  constructor
  · exact ⟨_, models_plot_eq_some_iff.mpr
      ⟨c, lv, lt, lf, mx, idx, hc, hlv, hlt, hlf, hmx, hidx, rfl⟩, rfl⟩
  · exact ⟨_, viewmodel_plot_eq_some_iff.mpr
      ⟨c, lv, lt, lf, mn, mnI, mx, idx, hc, hlv, hlt, hlf, hmn, hmnI, hmx, hidx, rfl⟩, rfl⟩

/-- C4 witness: the two-epoch checkpoint `ckptA` plots and saves under both
routines. -/
theorem C4_witness :
    (∃ o, Models.plot_training_metrics sampleFS s1
        "/repo/src/data/models/net_best_f1.pth" "net" = some o ∧
      o.saved_path = s1.root_folder ++ "/data/images/" ++ "net" ++ ".png") ∧
    (∃ o, ViewModel.plot_training_metrics sampleFS
        "/repo/src/data/models/net_best_f1.pth" "net" "out" = some o ∧
      o.saved_path = "out" ++ "/" ++ "net" ++ ".png") :=
  C4_plot_completes_and_saves sampleFS s1 "/repo/src/data/models/net_best_f1.pth"
    "net" "out" ckptA [3, 2] [4, 3] [1, 2] 2 rfl rfl rfl rfl rfl rfl rfl (by decide)

/-- C5: every fine-tuned preparation reads the checkpoint from exactly the
path `<download_folder>/<m>_best_f1.pth` — the result depends on the
filesystem only through its value at that path — and `download_folder` is
fixed to `<root>/data/models` at construction time. -/
theorem C5_checkpoint_path
    (root device : String) (tv : Torchvision) (fs fs' : FS) (self : Models)
    (m : String) (k : ℕ)
    (hagree : fs (self.download_folder ++ "/" ++ m ++ "_best_f1.pth") =
              fs' (self.download_folder ++ "/" ++ m ++ "_best_f1.pth")) :
    (Models.init root device).download_folder = root ++ "/data/models" ∧
    Models.prepare_finetuned_efficientnet_b0 tv fs self m k =
      Models.prepare_finetuned_efficientnet_b0 tv fs' self m k ∧
    Models.prepare_finetuned_efficientnet_b1 tv fs self m k =
      Models.prepare_finetuned_efficientnet_b1 tv fs' self m k ∧
    Models.prepare_finetuned_mobilenet_v3_large tv fs self m k =
      Models.prepare_finetuned_mobilenet_v3_large tv fs' self m k ∧
    Models.prepare_finetuned_shufflenet_v2_x2_0 tv fs self m k =
      Models.prepare_finetuned_shufflenet_v2_x2_0 tv fs' self m k :=
  ⟨rfl,
   prepare_finetuned_core_fs_congr tv.efficientnet_b0 self m k hagree,
   prepare_finetuned_core_fs_congr tv.efficientnet_b1 self m k hagree,
   prepare_finetuned_core_fs_congr tv.mobilenet_v3_large self m k hagree,
   prepare_finetuned_core_fs_congr tv.shufflenet_v2_x2_0 self m k hagree⟩

/-- C5 witness: a second filesystem differing from `sampleFS` everywhere
except at `"net"`'s checkpoint path gives the identical preparation result. -/
theorem C5_witness :
    (Models.init "/repo/src" "cpu").download_folder = "/repo/src" ++ "/data/models" ∧
    Models.prepare_finetuned_efficientnet_b0 sampleTV sampleFS s0 "net" 8 =
      Models.prepare_finetuned_efficientnet_b0 sampleTV
        (fun p => if p = "/repo/src/data/models/net_best_f1.pth" then some ckptA else none)
        s0 "net" 8 ∧
    Models.prepare_finetuned_efficientnet_b1 sampleTV sampleFS s0 "net" 8 =
      Models.prepare_finetuned_efficientnet_b1 sampleTV
        (fun p => if p = "/repo/src/data/models/net_best_f1.pth" then some ckptA else none)
        s0 "net" 8 ∧
    Models.prepare_finetuned_mobilenet_v3_large sampleTV sampleFS s0 "net" 8 =
      Models.prepare_finetuned_mobilenet_v3_large sampleTV
        (fun p => if p = "/repo/src/data/models/net_best_f1.pth" then some ckptA else none)
        s0 "net" 8 ∧
    Models.prepare_finetuned_shufflenet_v2_x2_0 sampleTV sampleFS s0 "net" 8 =
      Models.prepare_finetuned_shufflenet_v2_x2_0 sampleTV
        (fun p => if p = "/repo/src/data/models/net_best_f1.pth" then some ckptA else none)
        s0 "net" 8 :=
  C5_checkpoint_path "/repo/src" "cpu" sampleTV sampleFS
    (fun p => if p = "/repo/src/data/models/net_best_f1.pth" then some ckptA else none)
    s0 "net" 8 rfl

/-- C6: when an underlying operation fails — missing checkpoint file,
checkpoint lacking an expected key (`model_state_dict`, `best_val_f1`,
`val_loss`, `train_loss`, `f1_metric_val`), or an empty metric sequence — the
fine-tuned preparation and plotting operations propagate the exception
(`none`) instead of returning normally or recovering; no branch of their
bodies catches or translates an error. -/
theorem C6_failures_uncaught
    (tv : Torchvision) (fs : FS) (self : Models) (m : String) (k : ℕ)
    (cp n dir : String) (c : Checkpoint) :
    (fs (self.download_folder ++ "/" ++ m ++ "_best_f1.pth") = none →
      Models.prepare_finetuned_efficientnet_b0 tv fs self m k = none ∧
      Models.prepare_finetuned_efficientnet_b1 tv fs self m k = none ∧
      Models.prepare_finetuned_mobilenet_v3_large tv fs self m k = none ∧
      Models.prepare_finetuned_shufflenet_v2_x2_0 tv fs self m k = none) ∧
    (fs (self.download_folder ++ "/" ++ m ++ "_best_f1.pth") = some c →
      (c.model_state_dict = none →
        Models.prepare_finetuned_efficientnet_b0 tv fs self m k = none ∧
        Models.prepare_finetuned_efficientnet_b1 tv fs self m k = none ∧
        Models.prepare_finetuned_mobilenet_v3_large tv fs self m k = none ∧
        Models.prepare_finetuned_shufflenet_v2_x2_0 tv fs self m k = none) ∧
      (c.best_val_f1 = none →
        Models.prepare_finetuned_efficientnet_b0 tv fs self m k = none ∧
        Models.prepare_finetuned_efficientnet_b1 tv fs self m k = none ∧
        Models.prepare_finetuned_mobilenet_v3_large tv fs self m k = none ∧
        Models.prepare_finetuned_shufflenet_v2_x2_0 tv fs self m k = none)) ∧
    (fs cp = none →
      Models.plot_training_metrics fs self cp n = none ∧
      ViewModel.plot_training_metrics fs cp n dir = none) ∧
    (fs cp = some c →
      (c.val_loss = none ∨ c.train_loss = none ∨ c.f1_metric_val = none →
        Models.plot_training_metrics fs self cp n = none ∧
        ViewModel.plot_training_metrics fs cp n dir = none) ∧
      (c.f1_metric_val = some [] →
        Models.plot_training_metrics fs self cp n = none ∧
        ViewModel.plot_training_metrics fs cp n dir = none) ∧
      (c.val_loss = some [] →
        ViewModel.plot_training_metrics fs cp n dir = none)) := by
  refine ⟨?_, ?_, ?_, ?_⟩
  · intro hfs
    exact ⟨prepare_finetuned_core_none_of_missing_file hfs,
      prepare_finetuned_core_none_of_missing_file hfs,
      prepare_finetuned_core_none_of_missing_file hfs,
      prepare_finetuned_core_none_of_missing_file hfs⟩
  · intro hfs
    constructor
    · intro hsd
      exact ⟨prepare_finetuned_core_none_of_missing_sd hfs hsd,
        prepare_finetuned_core_none_of_missing_sd hfs hsd,
        prepare_finetuned_core_none_of_missing_sd hfs hsd,
        prepare_finetuned_core_none_of_missing_sd hfs hsd⟩
    · intro hbv
      exact ⟨prepare_finetuned_core_none_of_missing_best hfs hbv,
        prepare_finetuned_core_none_of_missing_best hfs hbv,
        prepare_finetuned_core_none_of_missing_best hfs hbv,
        prepare_finetuned_core_none_of_missing_best hfs hbv⟩
  · intro hfs
    exact ⟨models_plot_none_of_missing_file hfs,
      viewmodel_plot_none_of_missing_file hfs⟩
  · intro hfs
    refine ⟨?_, ?_, ?_⟩
    · intro hkey
      exact ⟨models_plot_none_of_missing_key hfs hkey,
        viewmodel_plot_none_of_missing_key hfs hkey⟩
    · intro hf
      exact ⟨models_plot_none_of_empty_f1 hfs hf,
        viewmodel_plot_none_of_empty_f1 hfs hf⟩
    · intro hv
      exact viewmodel_plot_none_of_empty_val hfs hv

/-- C6 witness: on the concrete filesystem, preparing a model whose
checkpoint file is absent fails, preparing from the deficient checkpoint
`ckptBad` (no `model_state_dict`, no `best_val_f1`, empty sequences) fails,
and plotting `ckptBad` fails in both routines. -/
theorem C6_witness :
    (Models.prepare_finetuned_efficientnet_b0 sampleTV sampleFS s0 "missing" 8 = none ∧
     Models.prepare_finetuned_efficientnet_b1 sampleTV sampleFS s0 "missing" 8 = none ∧
     Models.prepare_finetuned_mobilenet_v3_large sampleTV sampleFS s0 "missing" 8 = none ∧
     Models.prepare_finetuned_shufflenet_v2_x2_0 sampleTV sampleFS s0 "missing" 8 = none) ∧
    (Models.prepare_finetuned_efficientnet_b0 sampleTV sampleFS s0 "bad" 8 = none ∧
     Models.prepare_finetuned_efficientnet_b1 sampleTV sampleFS s0 "bad" 8 = none ∧
     Models.prepare_finetuned_mobilenet_v3_large sampleTV sampleFS s0 "bad" 8 = none ∧
     Models.prepare_finetuned_shufflenet_v2_x2_0 sampleTV sampleFS s0 "bad" 8 = none) ∧
    (Models.plot_training_metrics sampleFS s0 "/repo/src/data/models/bad_best_f1.pth" "b" = none ∧
     ViewModel.plot_training_metrics sampleFS "/repo/src/data/models/bad_best_f1.pth" "b" "out" = none) :=
  ⟨(C6_failures_uncaught sampleTV sampleFS s0 "missing" 8 "x" "b" "out" ckptBad).1 rfl,
   ((C6_failures_uncaught sampleTV sampleFS s0 "bad" 8 "x" "b" "out" ckptBad).2.1 rfl).1 rfl,
   ((C6_failures_uncaught sampleTV sampleFS s0 "bad" 8
       "/repo/src/data/models/bad_best_f1.pth" "b" "out" ckptBad).2.2.2 rfl).2.1 rfl⟩

/-- C7: a single-epoch checkpoint (all three sequences of length exactly 1)
plots without any indexing error in both routines; the single epoch (index 0,
reported as epoch 1) is the annotated one. -/
theorem C7_single_epoch_plots
    (fs : FS) (self : Models) (cp n dir : String) (c : Checkpoint) (a b d : ℚ)
    (hc : fs cp = some c) (ht : c.train_loss = some [a]) (hv : c.val_loss = some [b])
    (hf : c.f1_metric_val = some [d]) :
    (∃ o, Models.plot_training_metrics fs self cp n = some o ∧
      o.marker_on = [0] ∧ o.ann_epoch = 1) ∧
    (∃ o, ViewModel.plot_training_metrics fs cp n dir = some o ∧
      o.marker_on = [0] ∧ o.ann_text_epoch = 1) := by
  have hmax : pyMax [d] = some d := rfl
  have hmin : pyMin [b] = some b := rfl
  have hidxd : pyIndex [d] d = some 0 := by
    unfold pyIndex
    rw [if_pos rfl]
  have hidxb : pyIndex [b] b = some 0 := by
    unfold pyIndex
    rw [if_pos rfl]
  constructor
  · exact ⟨_, models_plot_eq_some_iff.mpr
      ⟨c, [b], [a], [d], d, 0, hc, hv, ht, hf, hmax, hidxd, rfl⟩, rfl, rfl⟩
  · exact ⟨_, viewmodel_plot_eq_some_iff.mpr
      ⟨c, [b], [a], [d], b, 0, d, 0, hc, hv, ht, hf, hmin, hidxb, hmax, hidxd, rfl⟩,
      rfl, rfl⟩

/-- C7 witness: the single-epoch checkpoint `ckptS` plots in both routines. -/
theorem C7_witness :
    (∃ o, Models.plot_training_metrics sampleFS s0
        "/repo/src/data/models/snet_best_f1.pth" "s" = some o ∧
      o.marker_on = [0] ∧ o.ann_epoch = 1) ∧
    (∃ o, ViewModel.plot_training_metrics sampleFS
        "/repo/src/data/models/snet_best_f1.pth" "s" "out" = some o ∧
      o.marker_on = [0] ∧ o.ann_text_epoch = 1) :=
  C7_single_epoch_plots sampleFS s0 "/repo/src/data/models/snet_best_f1.pth" "s"
    "out" ckptS 3 4 1 rfl rfl rfl rfl

/-- C8: the registry starts empty, only `prepare_finetuned_*` calls write it,
`create_new_*` and `plot_training_metrics` leave the object unchanged, and no
call removes an entry: after any successful trace, the keys of the registry
are exactly the model names passed to fine-tuned preparation calls. -/
theorem C8_registry_written_only_by_prepare
    (tv : Torchvision) (fs : FS) (root device : String) :
    (Models.init root device).model_weights = [] ∧
    (∀ (self : Models) (k : ℕ),
      Models.step tv fs self (MOp.create_new_efficientnet_b0 k) = some self) ∧
    (∀ (self : Models) (k : ℕ),
      Models.step tv fs self (MOp.create_new_efficientnet_b1 k) = some self) ∧
    (∀ (self : Models) (k : ℕ),
      Models.step tv fs self (MOp.create_new_mobilenet_v3_large k) = some self) ∧
    (∀ (self : Models) (k : ℕ),
      Models.step tv fs self (MOp.create_new_shufflenet_v2_x2_0 k) = some self) ∧
    (∀ (self self' : Models) (cp n : String),
      Models.step tv fs self (MOp.plot_training_metrics cp n) = some self' →
      self' = self) ∧
    (∀ (ops : List MOp) (self' : Models),
      Models.run tv fs (Models.init root device) ops = some self' →
      ∀ key, key ∈ self'.model_weights.map Prod.fst ↔ key ∈ prepNames ops) := by
  refine ⟨rfl, fun self k => rfl, fun self k => rfl, fun self k => rfl,
    fun self k => rfl, ?_, ?_⟩
  · intro self self' cp n h
    rw [Models.step] at h
    rcases Option.map_eq_some'.mp h with ⟨o, _, hs⟩
    exact hs.symm
  · intro ops self' h key
    rw [run_keys tv fs ops (Models.init root device) self' h key]
    simp [Models.init]

/-- C8 witness: on the trace `create; prepare "net"; plot` from a fresh
object, the final registry keys are exactly `["net"]`. -/
theorem C8_witness :
    (Models.init "/repo/src" "cpu").model_weights = [] ∧
    ("net" ∈ s1.model_weights.map Prod.fst ↔ "net" ∈ prepNames traceC8) :=
  ⟨(C8_registry_written_only_by_prepare sampleTV sampleFS "/repo/src" "cpu").1,
   (C8_registry_written_only_by_prepare sampleTV sampleFS "/repo/src" "cpu").2.2.2.2.2.2
     traceC8 s1 rfl "net"⟩

/-- C9: when the maximum F1 value occurs at more than one epoch, the
annotations derived from `f1_metric_val.index(max(f1_metric_val))` — the
marker and the text epoch of `Models.plot_training_metrics`, and the text
epoch of `view_model.plot_training_metrics` — name the earliest epoch
attaining the maximum. -/
theorem C9_tie_annotates_earliest
    (fs : FS) (self : Models) (cp₁ n₁ cp₂ n₂ dir : String)
    (o : PlotOutput) (vo : VMPlotOutput)
    (ho : Models.plot_training_metrics fs self cp₁ n₁ = some o)
    (hvo : ViewModel.plot_training_metrics fs cp₂ n₂ dir = some vo)
    (htie : ∃ (i : ℕ) (j : ℕ) (hi : i < o.f1_series.length)
      (hj : j < o.f1_series.length),
      i ≠ j ∧ o.f1_series.get ⟨i, hi⟩ = o.f1_series.get ⟨j, hj⟩ ∧
      ∀ p (hp : p < o.f1_series.length),
        o.f1_series.get ⟨p, hp⟩ ≤ o.f1_series.get ⟨i, hi⟩)
    (hvtie : ∃ (i : ℕ) (j : ℕ) (hi : i < vo.f1_series.length)
      (hj : j < vo.f1_series.length),
      i ≠ j ∧ vo.f1_series.get ⟨i, hi⟩ = vo.f1_series.get ⟨j, hj⟩ ∧
      ∀ p (hp : p < vo.f1_series.length),
        vo.f1_series.get ⟨p, hp⟩ ≤ vo.f1_series.get ⟨i, hi⟩) :
    (∃ i, IsFirstArgmax o.f1_series i ∧ o.marker_on = [i] ∧ o.ann_epoch = i + 1) ∧
    (∃ i, IsFirstArgmax vo.f1_series i ∧ vo.ann_text_epoch = i + 1) := by
  rcases models_plot_eq_some_iff.mp ho with
    ⟨c, lv, lt, lf, mx, idx, _, _, _, _, hmx, hidx, rfl⟩
  rcases viewmodel_plot_eq_some_iff.mp hvo with
    ⟨c', lv', lt', lf', mn, mnI, mx', mxI, _, _, _, _, _, _, hmx', hmxI, rfl⟩
  exact ⟨⟨idx, isFirstArgmax_of_pyMax_pyIndex hmx hidx, rfl, rfl⟩,
    ⟨mxI, isFirstArgmax_of_pyMax_pyIndex hmx' hmxI, rfl⟩⟩

/-- C9 witness: on `ckptTie`, whose maximum F1 value `2` occurs at epochs 1
and 3, both routines annotate epoch 1. -/
theorem C9_witness :
    (∃ i, IsFirstArgmax outTie.f1_series i ∧
      outTie.marker_on = [i] ∧ outTie.ann_epoch = i + 1) ∧
    (∃ i, IsFirstArgmax outTieV.f1_series i ∧ outTieV.ann_text_epoch = i + 1) :=
  C9_tie_annotates_earliest sampleFS s1 "tie.pth" "t" "tie.pth" "t" "out"
    outTie outTieV rfl rfl
    ⟨0, 2, by decide, by decide, by decide, by decide, by decide⟩
    ⟨0, 2, by decide, by decide, by decide, by decide, by decide⟩

theorem prepare_finetuned_core_records (base : TVModel) {fs : FS} {self : Models}
    {m : String} {k : ℕ} {c : Checkpoint} {v : ℚ}
    (hfs : fs (self.download_folder ++ "/" ++ m ++ "_best_f1.pth") = some c)
    (hv : c.best_val_f1 = some v) :
    ∀ (model : TVModel) (self' : Models),
      prepare_finetuned_core base fs self m k = some (model, self') →
      dictLookup self'.model_weights m = some v := by
  intro model self' h
  rcases prepare_finetuned_core_eq_some_iff.mp h with
    ⟨c', sd, w, m2, hc, _, _, hw, _, hself⟩
  rw [hfs, Option.some.injEq] at hc
  subst hc
  rw [hv, Option.some.injEq] at hw
  subst hw
  rw [hself]
  exact dictLookup_dictInsert_self self.model_weights m v

/-- C10: a `prepare_finetuned_*` call for a name `m` already present in the
registry overwrites its entry with the newly loaded checkpoint's
`best_val_f1` (last load wins), and repeating the same call with the same
name against an unchanged filesystem returns the same model and leaves the
object state exactly as after the first call. -/
theorem C10_overwrite_and_idempotence
    (tv : Torchvision) (fs : FS) (self : Models) (m : String) (k : ℕ) :
    (∀ (c : Checkpoint) (v w : ℚ),
      fs (self.download_folder ++ "/" ++ m ++ "_best_f1.pth") = some c →
      c.best_val_f1 = some v →
      dictLookup self.model_weights m = some w →
      (∀ model self₁, Models.prepare_finetuned_efficientnet_b0 tv fs self m k =
        some (model, self₁) → dictLookup self₁.model_weights m = some v) ∧
      (∀ model self₁, Models.prepare_finetuned_efficientnet_b1 tv fs self m k =
        some (model, self₁) → dictLookup self₁.model_weights m = some v) ∧
      (∀ model self₁, Models.prepare_finetuned_mobilenet_v3_large tv fs self m k =
        some (model, self₁) → dictLookup self₁.model_weights m = some v) ∧
      (∀ model self₁, Models.prepare_finetuned_shufflenet_v2_x2_0 tv fs self m k =
        some (model, self₁) → dictLookup self₁.model_weights m = some v)) ∧
    (∀ model self₁, Models.prepare_finetuned_efficientnet_b0 tv fs self m k =
      some (model, self₁) →
      Models.prepare_finetuned_efficientnet_b0 tv fs self₁ m k = some (model, self₁)) ∧
    (∀ model self₁, Models.prepare_finetuned_efficientnet_b1 tv fs self m k =
      some (model, self₁) →
      Models.prepare_finetuned_efficientnet_b1 tv fs self₁ m k = some (model, self₁)) ∧
    (∀ model self₁, Models.prepare_finetuned_mobilenet_v3_large tv fs self m k =
      some (model, self₁) →
      Models.prepare_finetuned_mobilenet_v3_large tv fs self₁ m k = some (model, self₁)) ∧
    (∀ model self₁, Models.prepare_finetuned_shufflenet_v2_x2_0 tv fs self m k =
      some (model, self₁) →
      Models.prepare_finetuned_shufflenet_v2_x2_0 tv fs self₁ m k = some (model, self₁)) := by
  refine ⟨?_, ?_, ?_, ?_, ?_⟩
  · intro c v w hfs hv _hw
    exact ⟨prepare_finetuned_core_records tv.efficientnet_b0 hfs hv,
      prepare_finetuned_core_records tv.efficientnet_b1 hfs hv,
      prepare_finetuned_core_records tv.mobilenet_v3_large hfs hv,
      prepare_finetuned_core_records tv.shufflenet_v2_x2_0 hfs hv⟩
  · intro model self₁ hp
    unfold Models.prepare_finetuned_efficientnet_b0 at hp ⊢
    exact prepare_finetuned_core_idem hp
  · intro model self₁ hp
    unfold Models.prepare_finetuned_efficientnet_b1 at hp ⊢
    exact prepare_finetuned_core_idem hp
  · intro model self₁ hp
    unfold Models.prepare_finetuned_mobilenet_v3_large at hp ⊢
    exact prepare_finetuned_core_idem hp
  · intro model self₁ hp
    unfold Models.prepare_finetuned_shufflenet_v2_x2_0 at hp ⊢
    exact prepare_finetuned_core_idem hp

/-- C10 witness: re-preparing `"net"` from the state `s1` that already maps
`"net" ↦ 2` again records `2` and returns the state `s1` itself. -/
theorem C10_witness :
    dictLookup s1.model_weights "net" = some 2 ∧
    Models.prepare_finetuned_efficientnet_b0 sampleTV sampleFS s1 "net" 8 =
      some (preparedNet, s1) :=
  ⟨((C10_overwrite_and_idempotence sampleTV sampleFS s1 "net" 8).1 ckptA 2 2
      rfl rfl rfl).1 preparedNet s1
      ((C10_overwrite_and_idempotence sampleTV sampleFS s0 "net" 8).2.1
        preparedNet s1 rfl),
   (C10_overwrite_and_idempotence sampleTV sampleFS s0 "net" 8).2.1
     preparedNet s1 rfl⟩
